import Mathlib

/-!
Shallow embedding of the LifeGame backend (engmung/LifeGame_Backend) for
specification checking.  Strings are modelled as lists of characters
(`Str := List Char`); Python string methods used by the source
(`str.split`, `str.strip`, `str.replace`, substring search) are embedded
as executable Lean functions below.  Exceptions are modelled with
`Except Unit` (an `error ()` stands for a raised Python exception);
external LLM providers are parameters mapping the prompt they receive to
either a response or a raised exception.
-/

namespace LifeGame

/-- Python strings, modelled as lists of characters. -/
abbrev Str := List Char

/-- Embeds the first cut of Python `s.split(sep)` for a non-empty `sep`:
returns `some (before, after)` where `before` is the text strictly before the
first occurrence of `sep` in `s` and `after` is everything after that
occurrence, or `none` when `sep` does not occur in `s`. -/
def splitFirst (sep : Str) : Str → Option (Str × Str)
  | [] => none
  | c :: rest =>
    if sep.isPrefixOf (c :: rest) then some ([], (c :: rest).drop sep.length)
    else
      match splitFirst sep rest with
      | none => none
      | some (pre, post) => some (c :: pre, post)

/-- Embeds the only two indices of Python `s.split(sep)` that
`ReflectionAnalyzer.get_gemini_analysis` reads (`parts[0]` and `parts[1]`):
the first component is the text before the first occurrence of `sep`
(`s` itself when `sep` is absent, matching `parts[0] = s`), and the second is
`some` of the text between the first occurrence and the following occurrence
(or the end of the string), and `none` when `sep` is absent — in which case
the Python `parts[1]` raises `IndexError`. -/
def pySplit01 (sep s : Str) : Str × Option Str :=
  match splitFirst sep s with
  | none => (s, none)
  | some (pre, rest) =>
    match splitFirst sep rest with
    | none => (pre, some rest)
    | some (mid, _) => (pre, some mid)

/-- Embeds Python `str.strip()` (for the ASCII whitespace characters
recognised by `Char.isWhitespace`): drops leading and trailing whitespace. -/
def strTrim (s : Str) : Str :=
  ((s.dropWhile Char.isWhitespace).reverse.dropWhile Char.isWhitespace).reverse

/-- Embeds Python `s.split('\n')`: splits at every newline; a string with no
newline yields the one-element list `[s]`. -/
def splitOnNl : Str → List Str
  | [] => [[]]
  | c :: rest =>
    if c = '\n' then [] :: splitOnNl rest
    else
      match splitOnNl rest with
      | [] => [[c]]
      | h :: t => (c :: h) :: t

/-- Embeds Python `line.split('.', 1)[1]` for a line known to contain a dot:
everything strictly after the first '.' of the line. -/
def afterFirstDot (l : Str) : Str := (l.dropWhile (· ≠ '.')).drop 1

/-- Fuel-driven worker for `removeAll`; the fuel is an upper bound on the
string length, so the function is structurally recursive and still reduces
in the kernel. -/
def removeAllAux (sep : Str) : Nat → Str → Str
  | 0, s => s
  | _ + 1, [] => []
  | n + 1, c :: rest =>
    if sep ≠ [] ∧ sep.isPrefixOf (c :: rest) then
      removeAllAux sep n (rest.drop (sep.length - 1))
    else c :: removeAllAux sep n rest

/-- Embeds Python `s.replace(sep, '')` for a non-empty `sep`: deletes every
occurrence of `sep` from `s`, scanning left to right. -/
def removeAll (sep s : Str) : Str := removeAllAux sep s.length s

/-- The literal questions-section marker `'[질문]'` of
`ReflectionAnalyzer.get_gemini_analysis` (agent.py line 112). -/
def qMarker : Str := "[질문]".data

/-- The literal analysis-section marker `'[분석]'` of
`ReflectionAnalyzer.get_gemini_analysis` (agent.py line 113). -/
def aMarker : Str := "[분석]".data

/-- Embeds one iteration of the question-extraction loop of
`ReflectionAnalyzer.get_gemini_analysis` (agent.py lines 117-121):
`line = line.strip(); if line and '.' in line:
questions.append(line.split('.', 1)[1].strip())`.
Returns `some question` when the line is kept and `none` when it is
skipped. -/
def parseQuestionLine (raw : Str) : Option Str :=
  let line := strTrim raw
  if line ≠ [] ∧ '.' ∈ line then some (strTrim (afterFirstDot line)) else none

/-- Embeds the response-parsing block of
`ReflectionAnalyzer.get_gemini_analysis` (agent.py lines 110-127), the
`try` body together with its `except` handler.  When the questions marker
occurs in `content`, the analysis is `parts[0]` with every `'[분석]'`
removed and then stripped, and the questions are extracted line by line
from `parts[1].strip()`.  When the marker is absent, `parts[1]` raises
`IndexError`, and the handler sets `analysis = content` (the raw input,
not stripped) and `questions = []`. -/
def get_gemini_parse (content : Str) : Str × List Str :=
  match pySplit01 qMarker content with
  | (_, none) => (content, [])
  | (p0, some p1) =>
    (strTrim (removeAll aMarker p0),
     (splitOnNl (strTrim p1)).filterMap parseQuestionLine)

/-- One entry of the timeline handed to the analyzer, a Python dict with
keys `time`, `activity`, `thoughts`; a `none` field models an absent key
(`get_todays_journal` builds these dicts incrementally, so any key may be
missing). -/
structure TimelineEntry where
  time : Option Str
  activity : Option Str
  thoughts : Option Str
deriving DecidableEq

/-- The dict returned by `NotionManager.get_todays_journal` and passed to
`ReflectionAnalyzer.generate_questions` as `journal_content`: a `timeline`
list plus a free-text `journal` body. -/
structure JournalData where
  timeline : List TimelineEntry
  journal : Str
deriving DecidableEq

/-- The `ReasoningResult` pydantic model of agent.py (lines 9-11). -/
structure ReasoningResult where
  analysis : Str
  questions : List Str
deriving DecidableEq

/-- The mutable `self.user_info` dict of `ReflectionAnalyzer`
(agent.py lines 55-58); both keys are always present, holding `None` or a
string. -/
structure UserInfo where
  goals : Option Str
  preferences : Option Str
deriving DecidableEq

/-- Embeds a Python dict access `d[key]`: raises `KeyError` when the key is
absent. -/
def keyGet : Option α → Except Unit α
  | some x => .ok x
  | none => .error ()

/-- Embeds the timeline-rendering loop of
`ReflectionAnalyzer.get_gemini_analysis` (agent.py lines 64-70): for each
activity, appends its time and activity lines (raising `KeyError` if either
key is missing) and a thoughts line when the `thoughts` key is present. -/
def timelineText (tl : List TimelineEntry) : Except Unit Str :=
  tl.foldlM
    (fun acc a => do
      let t ← keyGet a.time
      let act ← keyGet a.activity
      pure (acc ++ "\n시간: ".data ++ t ++ "\n활동: ".data ++ act ++
        (match a.thoughts with
         | some th => "\n생각/감정: ".data ++ th
         | none => []) ++ "\n".data))
    []

/-- Embeds the f-string rendering of a `self.user_info` value
(agent.py lines 77-78): the dict always contains the key, so the
`'정보 없음'` default of `.get` is dead code and a `None` value renders as
the literal text `None`. -/
def pyOptStr : Option Str → Str
  | none => "None".data
  | some s => s

/-- Prompt text of agent.py lines 72-76, up to the `mbti` interpolation. -/
def promptChunk1 : Str :=
  ("당신은 사용자의 하루 활동과 일기를 깊이있게 이해하고, 의미 있는 자기성찰을 돕는 전문가입니다.\n" ++
   "        객관적인 활동 기록과 순간의 감정, 그리고 하루를 정리한 일기를 모두 고려하여 사용자의 더 깊은 자기이해를 돕는 분석과 질문을 제시해주세요.\n" ++
   "        \n" ++
   "        사용자 정보:\n" ++
   "        - MBTI: ").data

/-- Prompt text between the `mbti` and goals interpolations (line 77). -/
def promptChunk2 : Str := "\n        - 목표: ".data

/-- Prompt text between the goals and preferences interpolations (line 78). -/
def promptChunk3 : Str := "\n        - 선호도: ".data

/-- Prompt text of lines 79-91, up to the `timeline_text` interpolation. -/
def promptChunk4 : Str :=
  ("\n        \n" ++
   "        다음 관점들을 고려하여 분석과 5개의 질문을 생성해주세요:\n" ++
   "        1. 순간의 감정과 회고 시점의 감정 차이\n" ++
   "        2. 활동과 감정의 연관성\n" ++
   "        3. 하루 동안의 감정/생각 변화 패턴\n" ++
   "        4. 현재 상황과 장기 목표의 연결점\n" ++
   "        5. 사용자의 행동 패턴과 동기\n" ++
   "        6. 잠재된 고정관념이나 편향된 시각\n" ++
   "        7. MBTI 특성과 관련된 통찰\n" ++
   "        8. 선호하는 학습/행동 방식의 효과성\n" ++
   "        \n" ++
   "        === 하루 활동 타임라인 ===\n" ++
   "        ").data

/-- Prompt text between the `timeline_text` and journal interpolations
(lines 92-94). -/
def promptChunk5 : Str := "\n\n        === 일기 내용 ===\n        ".data

/-- Prompt text after the journal interpolation (lines 95-104), containing
the requested `[분석]`/`[질문]` output format. -/
def promptChunk6 : Str :=
  ("\n\n        분석과 질문을 다음과 같은 형식으로 작성해주세요:\n\n" ++
   "        [분석]\n" ++
   "        여기에 2-3문단의 분석을 작성해주세요.\n\n" ++
   "        [질문]\n" ++
   "        1. 첫 번째 질문\n" ++
   "        2. 두 번째 질문\n" ++
   "        ...").data

/-- The pure prompt assembly of the f-string of agent.py lines 72-104,
given the already-rendered timeline text `tt`: every user-supplied field is
interpolated verbatim between the fixed literal chunks. -/
def promptCore (info : UserInfo) (mbti tt journal : Str) : Str :=
  promptChunk1 ++ mbti ++ promptChunk2 ++ pyOptStr info.goals ++
  promptChunk3 ++ pyOptStr info.preferences ++ promptChunk4 ++ tt ++
  promptChunk5 ++ journal ++ promptChunk6

/-- The prompt construction of `ReflectionAnalyzer.get_gemini_analysis`
(agent.py lines 63-104): renders the timeline (which may raise `KeyError`
on a malformed entry) and interpolates everything into the fixed
template. -/
def buildPrompt (info : UserInfo) (jd : JournalData) (mbti : Str) :
    Except Unit Str :=
  match timelineText jd.timeline with
  | .error e => .error e
  | .ok tt => .ok (promptCore info mbti tt jd.journal)

/-- Embeds `ReflectionAnalyzer.get_gemini_analysis` (agent.py lines
60-131).  `providerA` models the Gemini chat call
(`chat.send_message(prompt).text`), mapping the prompt it receives to
either the raw response text or a raised exception.  The response is
parsed by `get_gemini_parse`, whose internal failures are already absorbed
there, so a successful provider call always yields an `ok`
`ReasoningResult`. -/
def get_gemini_analysis (info : UserInfo) (jd : JournalData) (mbti : Str)
    (providerA : Str → Except Unit Str) : Except Unit ReasoningResult :=
  match buildPrompt info jd mbti with
  | .error e => .error e
  | .ok prompt =>
    match providerA prompt with
    | .error e => .error e
    | .ok content =>
      .ok ⟨(get_gemini_parse content).1, (get_gemini_parse content).2⟩

/-- Hexadecimal digit of `n < 16`, lowercase, as produced by Python json
escapes. -/
def hexDigit (n : Nat) : Char :=
  if n < 10 then Char.ofNat (48 + n) else Char.ofNat (87 + n)

/-- Embeds the per-character escaping of Python
`json.dumps(..., ensure_ascii=False)` for one character of a string
value. -/
def jsonEscapeChar (c : Char) : Str :=
  if c = '"' then ['\\', '"']
  else if c = '\\' then ['\\', '\\']
  else if c = '\n' then ['\\', 'n']
  else if c = '\r' then ['\\', 'r']
  else if c = '\t' then ['\\', 't']
  else if c.toNat = 8 then ['\\', 'b']
  else if c.toNat = 12 then ['\\', 'f']
  else if c.toNat < 32 then
    ['\\', 'u', '0', '0', hexDigit (c.toNat / 16), hexDigit (c.toNat % 16)]
  else [c]

/-- A JSON string literal for `s`, as produced by
`json.dumps(..., ensure_ascii=False)`. -/
def jsonStrLit (s : Str) : Str := '"' :: s.flatMap jsonEscapeChar ++ ['"']

/-- Embeds `json.dumps(questions, ensure_ascii=False, indent=2)` for a list
of strings (agent.py line 151): `[]` for the empty list, otherwise one
two-space-indented string literal per line between brackets. -/
def jsonDumpsQuestions (qs : List Str) : Str :=
  match qs with
  | [] => "[]".data
  | _ =>
    "[\n".data ++
    List.intercalate ",\n".data (qs.map (fun q => "  ".data ++ jsonStrLit q)) ++
    "\n]".data

/-- Text of the formatter user prompt before the analysis interpolation
(agent.py lines 145-148). -/
def fmtChunk1 : Str :=
  "다음 분석과 질문들을 검토하여 가장 통찰력 있는 5개의 질문을 선택하고 정제해주세요.\n\n분석 내용:\n".data

/-- Text of the formatter user prompt between the analysis and questions
interpolations (agent.py lines 149-151). -/
def fmtChunk2 : Str := "\n\n생성된 질문들:\n".data

/-- The user prompt sent to the second provider
(`self.formatter_agent.run`, agent.py lines 144-151), interpolating the
first stage's analysis and its questions rendered as JSON. -/
def formatterPrompt (r : ReasoningResult) : Str :=
  fmtChunk1 ++ r.analysis ++ fmtChunk2 ++ jsonDumpsQuestions r.questions

/-- The hard-coded fallback of `ReflectionAnalyzer.generate_questions`
(agent.py lines 159-165), returned whenever any pipeline step raises. -/
def fallbackQuestions : List Str :=
  ["오늘 하루 동안 가장 강하게 느낀 감정은 무엇이었나요? 그 감정이 들었던 이유는 무엇일까요?".data,
   "오늘의 경험 중에서 자신에 대해 새롭게 알게 된 점이 있다면 무엇인가요?".data,
   "오늘 했던 선택들 중에서 다르게 할 수 있었던 것이 있었나요?".data,
   "오늘 하루를 통해 자신의 어떤 가치관이나 신념이 확인되었나요?".data,
   "내일의 자신에게 해주고 싶은 이야기가 있다면 무엇인가요?".data]

/-- The `try` body of `ReflectionAnalyzer.generate_questions`
(agent.py lines 134-155) after the `self.user_info` update: first provider
call and parse, then the formatter call.  `providerB` models
`self.formatter_agent.run(prompt, deps={"mbti": mbti})`, mapping the user
prompt and the deps mbti to either the typed `QuestionsResponse.questions`
list (coerced by the pydantic-ai runtime) or a raised exception.  The
stored state does not appear: lines 136-137 overwrite both `user_info`
keys with the call arguments before any read. -/
def tryGenerate (jd : JournalData) (mbti : Str) (goals preferences : Option Str)
    (providerA : Str → Except Unit Str)
    (providerB : Str → Str → Except Unit (List Str)) : Except Unit (List Str) :=
  match get_gemini_analysis ⟨goals, preferences⟩ jd mbti providerA with
  | .error e => .error e
  | .ok result =>
    match providerB (formatterPrompt result) mbti with
    | .error e => .error e
    | .ok qs => .ok qs

/-- Embeds `ReflectionAnalyzer.generate_questions` (agent.py lines
133-165) as a state transformer on the analyzer's `self.user_info`: the
state is overwritten from the call arguments (lines 136-137) and the
`except Exception` handler replaces any raised error with the hard-coded
fallback list, so the call itself never raises. -/
def generate_questions (_st : UserInfo) (jd : JournalData) (mbti : Str)
    (goals preferences : Option Str)
    (providerA : Str → Except Unit Str)
    (providerB : Str → Str → Except Unit (List Str)) : UserInfo × List Str :=
  let st' : UserInfo := ⟨goals, preferences⟩
  match tryGenerate jd mbti goals preferences providerA providerB with
  | .error _ => (st', fallbackQuestions)
  | .ok qs => (st', qs)

/-- Modelled from the spec: the quest kind, `one of` a main or a sub
quest (spec section 3, `Quest`); the quest-generation code is not under
src/. -/
inductive QuestKind where
  | MainQuest
  | SubQuest
deriving DecidableEq

/-- Modelled from the spec: a quest record
`(title, kind, description)` (spec section 3); the quest-generation code is
not under src/. -/
structure Quest where
  title : Str
  kind : QuestKind
  description : Str
deriving DecidableEq

/-- Modelled from the spec: the QuestOrchestrator variant (spec sections
4.3, 4.4 and 7), whose source is not under src/.  It calls provider A in
free-text reasoning mode to obtain a rationale, then provider B
schema-constrained to convert the rationale into a quest list; on any
provider exception it re-raises to its caller and never substitutes a
default quest list. -/
def questOrchestrator (providerA : Str → Except Unit Str)
    (providerB : Str → Except Unit (List Quest)) (prompt : Str) :
    Except Unit (List Quest) :=
  match providerA prompt with
  | .error e => .error e
  | .ok rationale => providerB rationale

/-- The character class `[a-f0-9]` of the page-id regex
(notion_manager.py line 19 and notion_client.py line 11). -/
def isHexChar (c : Char) : Bool :=
  ('a' ≤ c && c ≤ 'f') || ('0' ≤ c && c ≤ '9')

/-- Whether a match of the regex `([a-f0-9]{32})` starts at index `i` of
`s`: the 32 characters from `i` exist and all lie in `[a-f0-9]`. -/
def hex32At (s : Str) (i : Nat) : Bool :=
  ((s.drop i).take 32).length = 32 && ((s.drop i).take 32).all isHexChar

/-- Embeds `re.search(r"([a-f0-9]{32})", url)`: scans positions left to
right and returns the 32-character match at the first position where one
starts, or `none`. -/
def searchHex32 : Str → Option Str
  | [] => none
  | c :: rest =>
    if hex32At (c :: rest) 0 then some ((c :: rest).take 32)
    else searchHex32 rest

/-- Embeds `NotionManager.extract_page_id` (notion_manager.py lines 17-23)
and the identical `NotionClient.extract_page_id` (notion_client.py lines
9-15): the leftmost 32-hex-character match of the URL, or a raised
`ValueError("Invalid Notion URL")` when there is none. -/
def extract_page_id (url : Str) : Except Str Str :=
  match searchHex32 url with
  | some pid => .ok pid
  | none => .error "Invalid Notion URL".data

/-- A Notion block as far as the code under src/ reads or writes it: the
block type plus the text contents of its `rich_text` array (one string per
rich-text element). -/
inductive Block where
  | heading1 (richText : List Str)
  | heading3 (richText : List Str)
  | paragraph (richText : List Str)
  | callout (richText : List Str)
  | divider
deriving DecidableEq

/-- One activity of the `/timeline/generate` request body (the `Activity`
pydantic model of main.py lines 41-45), as the dict passed to
`NotionManager.generate_daily_timeline`; `thoughts` is `None` when
omitted. -/
structure ActivityIn where
  title : Str
  startTime : Str
  endTime : Str
  thoughts : Option Str
deriving DecidableEq

/-- Lexicographic comparison of Python strings by code point, as used by
`sorted(activities, key=lambda x: x["startTime"])`. -/
def strLe : Str → Str → Bool
  | [], _ => true
  | _ :: _, [] => false
  | c :: cs, d :: ds => if c = d then strLe cs ds else decide (c < d)

/-- Stable insertion of `x` into `l`, placing `x` after every element
whose key is less than or equal. -/
def insertSorted (le : α → α → Bool) (x : α) : List α → List α
  | [] => [x]
  | y :: ys => if le y x then y :: insertSorted le x ys else x :: y :: ys

/-- Stable insertion sort, embedding Python `sorted(activities, key=...)`
(notion_manager.py line 280). -/
def sortActivities : List ActivityIn → List ActivityIn
  | [] => []
  | a :: rest => insertSorted (fun x y => strLe x.startTime y.startTime) a
      (sortActivities rest)

/-- The title paragraph text written for one activity
(notion_manager.py line 302):
`f"**{title}** ({startTime} - {endTime})"`. -/
def activityTitleText (a : ActivityIn) : Str :=
  "**".data ++ a.title ++ "** (".data ++ a.startTime ++ " - ".data ++
  a.endTime ++ ")".data

/-- The blocks appended for one activity by
`NotionManager.generate_daily_timeline` (lines 294-317): a paragraph with
the bold title line, plus a four-space-indented thoughts paragraph when
`activity.get('thoughts')` is truthy (present, non-`None` and
non-empty). -/
def activityBlocks (a : ActivityIn) : List Block :=
  Block.paragraph [activityTitleText a] ::
    (match a.thoughts with
     | some th => if th ≠ [] then [Block.paragraph ["    ".data ++ th]] else []
     | none => [])

/-- The `children` blocks of the timeline page created by
`NotionManager.generate_daily_timeline` (lines 283-328): one `heading_1`
block followed by the per-activity paragraphs of the activities sorted by
start time. -/
def timelineChildren (activities : List ActivityIn) : List Block :=
  Block.heading1 ["🕒 활동 기록".data] ::
    (sortActivities activities).flatMap activityBlocks

/-- The empty `current_activity` dict of
`NotionManager.get_todays_journal` (line 381). -/
def emptyEntry : TimelineEntry := ⟨none, none, none⟩

/-- Python truthiness of the `current_activity` dict: non-empty, i.e. at
least one key has been set. -/
def entryNonempty (e : TimelineEntry) : Bool :=
  e.time.isSome || e.activity.isSome || e.thoughts.isSome

/-- Python truthiness of `current_activity.get("time")`: the key is
present and its string value is non-empty. -/
def timeTruthy (e : TimelineEntry) : Bool :=
  match e.time with
  | some t => t ≠ []
  | none => false

/-- One iteration of the timeline-reconstruction loop of
`NotionManager.get_todays_journal` (lines 382-392) over the state
`(timeline_content, current_activity)`: a `heading_3` block saves the
current activity (when non-empty) and opens a new one from its first
rich-text element (raising `IndexError` when `rich_text` is empty); a
`paragraph` or `callout` block sets the activity or thoughts key only when
`current_activity.get("time")` is truthy; every other block type is
ignored. -/
def readTLStep (s : List TimelineEntry × TimelineEntry) (b : Block) :
    Except Unit (List TimelineEntry × TimelineEntry) :=
  match b with
  | .heading3 rt =>
    match rt with
    | [] => .error ()
    | t :: _ =>
      .ok ((if entryNonempty s.2 then s.1 ++ [s.2] else s.1),
           ⟨some t, none, none⟩)
  | .paragraph rt =>
    if timeTruthy s.2 then
      match rt with
      | [] => .error ()
      | t :: _ => .ok (s.1, { s.2 with activity := some t })
    else .ok s
  | .callout rt =>
    if timeTruthy s.2 then
      match rt with
      | [] => .error ()
      | t :: _ => .ok (s.1, { s.2 with thoughts := some t })
    else .ok s
  | _ => .ok s

/-- The timeline reconstruction of `NotionManager.get_todays_journal`
(lines 376-395) applied to the blocks of a timeline page: folds
`readTLStep` from an empty accumulator and empty `current_activity`, then
appends the final activity when non-empty. -/
def readTimeline (blocks : List Block) : Except Unit (List TimelineEntry) :=
  match blocks.foldlM readTLStep ([], emptyEntry) with
  | .error e => .error e
  | .ok (acc, cur) => .ok (if entryNonempty cur then acc ++ [cur] else acc)

/-- Spec-side predicate, following the words of spec section 4.3: a line
has a number-dot prefix when it starts with one or more decimal digits
followed immediately by a dot.  Used only to compare the spec's
keep-a-line criterion with the source's. -/
def numberDotLine (l : Str) : Bool :=
  (decide (l.takeWhile Char.isDigit ≠ [])) &&
    (match l.dropWhile Char.isDigit with
     | '.' :: _ => true
     | _ => false)

/-- Decidable equality of `Except` values, used to evaluate the embedded
pipeline at concrete inputs. -/
instance {ε α : Type} [DecidableEq ε] [DecidableEq α] :
    DecidableEq (Except ε α) := fun a b => by
  cases a with
  | error e =>
    cases b with
    | error f => exact decidable_of_iff (e = f) (by simp)
    | ok y => exact .isFalse (by simp)
  | ok x =>
    cases b with
    | error f => exact .isFalse (by simp)
    | ok y => exact decidable_of_iff (x = y) (by simp)

/-- When the first occurrence of a non-empty `sep` in
`pre ++ (sep ++ post)` is the one displayed (no occurrence starts inside
`pre`), `splitFirst` cuts exactly there. -/
theorem splitFirst_append (sep pre post : Str) (hsep : sep ≠ [])
    (hfirst : ∀ j < pre.length,
      ¬ sep.isPrefixOf ((pre ++ (sep ++ post)).drop j) = true) :
    splitFirst sep (pre ++ (sep ++ post)) = some (pre, post) := by
  induction pre with
  | nil =>
    obtain ⟨a, sep', rfl⟩ : ∃ a sep', sep = a :: sep' := by
      cases sep with
      | nil => exact absurd rfl hsep
      | cons a s => exact ⟨a, s, rfl⟩
    have hp : (a :: sep').isPrefixOf ((a :: sep') ++ post) = true :=
      List.isPrefixOf_iff_prefix.mpr (List.prefix_append _ _)
    have hd : ((a :: sep') ++ post).drop (a :: sep').length = post :=
      List.drop_left _ _
    rw [List.nil_append, List.cons_append] at *
    simp [splitFirst, hp, hd]
  | cons c pre' ih =>
    have h0 : sep.isPrefixOf (c :: (pre' ++ (sep ++ post))) = false := by
      have := hfirst 0 (by simp)
      rw [List.drop_zero, List.cons_append] at this
      cases hb : sep.isPrefixOf (c :: (pre' ++ (sep ++ post))) with
      | false => rfl
      | true => exact absurd hb this
    have hfirst' : ∀ j < pre'.length,
        ¬ sep.isPrefixOf ((pre' ++ (sep ++ post)).drop j) = true := by
      intro j hj
      have := hfirst (j + 1) (by simpa using Nat.succ_lt_succ hj)
      rw [List.cons_append, List.drop_succ_cons] at this
      exact this
    rw [List.cons_append]
    simp [splitFirst, h0, ih hfirst']

/-- The two indices of Python `split` read by the parser, computed for an
input with exactly one marked occurrence: `parts[0]` is the text before
the marker and `parts[1]` the text after it. -/
theorem pySplit01_append (sep pre post : Str) (hsep : sep ≠ [])
    (hfirst : ∀ j < pre.length,
      ¬ sep.isPrefixOf ((pre ++ (sep ++ post)).drop j) = true)
    (hpost : splitFirst sep post = none) :
    pySplit01 sep (pre ++ (sep ++ post)) = (pre, some post) := by
  rw [pySplit01, splitFirst_append sep pre post hsep hfirst]
  simp [hpost]

/-- A `filterMap` in which every element is kept is the corresponding
`map`. -/
theorem filterMap_congr_map {α β : Type} (p : α → Option β) (f : α → β)
    (l : List α) (h : ∀ a ∈ l, p a = some (f a)) :
    l.filterMap p = l.map f := by
  induction l with
  | nil => rfl
  | cons a l ih =>
    simp only [List.filterMap_cons, h a (by simp), List.map_cons]
    rw [ih (fun x hx => h x (by simp [hx]))]

/-- Shifting `hex32At` by one position past a leading character. -/
theorem hex32At_cons_succ (c : Char) (rest : Str) (j : Nat) :
    hex32At (c :: rest) (j + 1) = hex32At rest j := by
  simp [hex32At]

/-- The regex search fails exactly when no position starts a
32-hex-character run. -/
theorem searchHex32_eq_none_iff (s : Str) :
    searchHex32 s = none ↔ ∀ i, hex32At s i = false := by
  induction s with
  | nil =>
    constructor
    · intro _ i
      simp [hex32At]
    · intro _
      rfl
  | cons c rest ih =>
    cases hx : hex32At (c :: rest) 0 with
    | false =>
      have hs : searchHex32 (c :: rest) = searchHex32 rest := by
        simp [searchHex32, hx]
      rw [hs, ih]
      constructor
      · intro hall i
        cases i with
        | zero => exact hx
        | succ j => rw [hex32At_cons_succ]; exact hall j
      · intro hall j
        rw [← hex32At_cons_succ c rest j]
        exact hall (j + 1)
    | true =>
      have hs : searchHex32 (c :: rest) = some ((c :: rest).take 32) := by
        simp [searchHex32, hx]
      rw [hs]
      constructor
      · intro h
        cases h
      · intro hall
        have h0 := hall 0
        rw [hx] at h0
        cases h0

/-- The regex search returns the match at the leftmost position where a
32-hex-character run starts. -/
theorem searchHex32_first (s : Str) (i : Nat) (hi : hex32At s i = true)
    (hmin : ∀ j < i, hex32At s j = false) :
    searchHex32 s = some ((s.drop i).take 32) := by
  induction s generalizing i with
  | nil =>
    exfalso
    simp [hex32At] at hi
  | cons c rest ih =>
    cases i with
    | zero =>
      simp only [List.drop_zero]
      simp [searchHex32, hi]
    | succ j =>
      have h0 : hex32At (c :: rest) 0 = false := hmin 0 (Nat.succ_pos j)
      have hi' : hex32At rest j = true := by
        rw [← hex32At_cons_succ c rest j]
        exact hi
      have hmin' : ∀ k < j, hex32At rest k = false := by
        intro k hk
        rw [← hex32At_cons_succ c rest k]
        exact hmin (k + 1) (Nat.succ_lt_succ hk)
      rw [List.drop_succ_cons]
      simp [searchHex32, h0, ih j hi' hmin']

/-- Folding the timeline-reading step over paragraph-only blocks leaves
the empty state unchanged: with no `heading_3` seen, the
`current_activity.get("time")` guard is never satisfied. -/
theorem readTL_paragraphs_skip (bs : List Block)
    (h : ∀ b ∈ bs, ∃ rt, b = Block.paragraph rt) :
    bs.foldlM readTLStep ([], emptyEntry) = .ok ([], emptyEntry) := by
  induction bs with
  | nil => rfl
  | cons b rest ih =>
    obtain ⟨rt, rfl⟩ := h b (List.mem_cons_self b rest)
    have hstep : readTLStep ([], emptyEntry) (Block.paragraph rt) =
        .ok ([], emptyEntry) := by
      simp [readTLStep, timeTruthy, emptyEntry]
    rw [List.foldlM_cons, hstep]
    show rest.foldlM readTLStep ([], emptyEntry) = .ok ([], emptyEntry)
    exact ih (fun x hx => h x (by simp [hx]))

/-- Every block appended for an activity by `generate_daily_timeline` is a
paragraph block. -/
theorem activityBlocks_paragraphs (a : ActivityIn) (b : Block)
    (hb : b ∈ activityBlocks a) : ∃ rt, b = Block.paragraph rt := by
  unfold activityBlocks at hb
  cases hth : a.thoughts with
  | none =>
    rw [hth] at hb
    simp at hb
    exact ⟨_, hb⟩
  | some th =>
    rw [hth] at hb
    by_cases hne : th ≠ []
    · simp [hne] at hb
      cases hb with
      | inl h1 => exact ⟨_, h1⟩
      | inr h2 => exact ⟨_, h2⟩
    · simp [hne] at hb
      exact ⟨_, hb⟩

/-- Claim C2: for every provider output of the form
`pre ++ '[질문]' ++ post` in which the displayed marker occurrence is the
first one, no further `'[질문]'` occurs in `post`, and every line of the
stripped questions section is a numbered line (non-blank and containing a
dot), the parser returns `analysis` equal to `pre` with every `'[분석]'`
marker removed and then stripped, and `questions` with exactly one entry
per line, in the original line order, each entry being the text after the
first dot of its (stripped) line, stripped. -/
theorem c2_wellformed_parse (content pre post : Str)
    (h1 : content = pre ++ (qMarker ++ post))
    (hfirst : ∀ j < pre.length,
      ¬ qMarker.isPrefixOf (content.drop j) = true)
    (hpost : splitFirst qMarker post = none)
    (hlines : ∀ l ∈ splitOnNl (strTrim post),
      strTrim l ≠ [] ∧ '.' ∈ strTrim l) :
    get_gemini_parse content =
      (strTrim (removeAll aMarker pre),
       (splitOnNl (strTrim post)).map
         (fun l => strTrim (afterFirstDot (strTrim l)))) ∧
    (get_gemini_parse content).2.length =
      (splitOnNl (strTrim post)).length := by
  subst h1
  have hps := pySplit01_append qMarker pre post (by decide) hfirst hpost
  have hq : (splitOnNl (strTrim post)).filterMap parseQuestionLine =
      (splitOnNl (strTrim post)).map
        (fun l => strTrim (afterFirstDot (strTrim l))) := by
    apply filterMap_congr_map
    intro l hl
    have hc := hlines l hl
    simp [parseQuestionLine, hc.1, hc.2]
  constructor
  · simp [get_gemini_parse, hps, hq]
  · simp [get_gemini_parse, hps, hq]

/-- Witness for C2 at a concrete well-formed provider output with two
numbered question lines. -/
theorem c2_wellformed_parse_witness :
    ("[분석] 좋은 하루[질문]\n1. 하나?\n2. 둘?".data : Str) =
      "[분석] 좋은 하루".data ++ (qMarker ++ "\n1. 하나?\n2. 둘?".data) ∧
    splitFirst qMarker ("\n1. 하나?\n2. 둘?".data) = none ∧
    get_gemini_parse ("[분석] 좋은 하루[질문]\n1. 하나?\n2. 둘?".data) =
      (strTrim (removeAll aMarker ("[분석] 좋은 하루".data)),
       (splitOnNl (strTrim ("\n1. 하나?\n2. 둘?".data))).map
         (fun l => strTrim (afterFirstDot (strTrim l)))) :=
  ⟨by decide, by decide,
   (c2_wellformed_parse ("[분석] 좋은 하루[질문]\n1. 하나?\n2. 둘?".data)
     ("[분석] 좋은 하루".data) ("\n1. 하나?\n2. 둘?".data)
     (by decide) (by decide) (by decide) (by decide)).1⟩

/-- Counterexample to claim C3 as stated: on input `' hi '`, which has no
questions marker, the parser returns the raw input as `analysis`, not the
trimmed input — the `except` handler assigns `analysis = content` without
stripping. -/
theorem c3_analysis_not_trimmed_cex :
    get_gemini_parse (" hi ".data) = (" hi ".data, []) ∧
    (get_gemini_parse (" hi ".data)).1 ≠ strTrim (" hi ".data) := by
  decide

/-- Claim C3 (amended): for every provider output with no occurrence of
the `'[질문]'` questions marker, the parser returns `questions` as the
empty sequence and `analysis` equal to the whole raw input, unchanged (not
trimmed), and never raises: the `IndexError` on `parts[1]` is caught and
resolved inside the function. -/
theorem c3_no_marker_raw (content : Str)
    (h : splitFirst qMarker content = none) :
    get_gemini_parse content = (content, []) := by
  simp [get_gemini_parse, pySplit01, h]

/-- Witness for C3 at a concrete marker-free input. -/
theorem c3_no_marker_raw_witness :
    splitFirst qMarker ("분석만 있는 답변".data) = none ∧
    get_gemini_parse ("분석만 있는 답변".data) = ("분석만 있는 답변".data, []) :=
  ⟨by decide, c3_no_marker_raw ("분석만 있는 답변".data) (by decide)⟩

/-- Counterexample to claim C5 as stated: the line `'abc.def'` of a
questions section has no number-dot prefix, yet the parser keeps it
(producing the question `'def'`), because the source retains any non-blank
line containing a dot anywhere (`if line and '.' in line`), not only
number-dot-prefixed lines. -/
theorem c5_dot_line_kept_cex :
    get_gemini_parse ("x[질문]abc.def".data) = ("x".data, ["def".data]) ∧
    numberDotLine (strTrim ("abc.def".data)) = false := by
  decide

/-- Claim C5 (amended): after splitting on the questions marker, a line of
the questions section is kept as a question if and only if it is non-empty
after stripping and contains a dot anywhere (blank and dot-free lines are
skipped silently); each kept question is the stripped text after the first
dot of its stripped line.  Lines without a number-dot prefix are kept too
whenever they contain a dot. -/
theorem c5_line_kept_iff (content pre post : Str)
    (h1 : content = pre ++ (qMarker ++ post))
    (hfirst : ∀ j < pre.length,
      ¬ qMarker.isPrefixOf (content.drop j) = true)
    (hpost : splitFirst qMarker post = none) :
    (get_gemini_parse content).2 =
      (splitOnNl (strTrim post)).filterMap parseQuestionLine ∧
    ∀ raw q, parseQuestionLine raw = some q ↔
      (strTrim raw ≠ [] ∧ '.' ∈ strTrim raw ∧
       q = strTrim (afterFirstDot (strTrim raw))) := by
  subst h1
  have hps := pySplit01_append qMarker pre post (by decide) hfirst hpost
  constructor
  · simp [get_gemini_parse, hps]
  · intro raw q
    by_cases hc : strTrim raw ≠ [] ∧ '.' ∈ strTrim raw
    · simp [parseQuestionLine, hc.1, hc.2]
      exact eq_comm
    · constructor
      · intro hk
        exfalso
        apply hc
        by_contra hcf
        simp [parseQuestionLine, hcf] at hk
      · intro hr
        exact absurd ⟨hr.1, hr.2.1⟩ hc

/-- Witness for C5 at a concrete input whose questions section holds one
blank line, one dot-free line and one dotted line: only the dotted line is
kept. -/
theorem c5_line_kept_iff_witness :
    ("머리[질문]\n공백없음\nabc.def".data : Str) =
      "머리".data ++ (qMarker ++ "\n공백없음\nabc.def".data) ∧
    splitFirst qMarker ("\n공백없음\nabc.def".data) = none ∧
    (get_gemini_parse ("머리[질문]\n공백없음\nabc.def".data)).2 =
      (splitOnNl (strTrim ("\n공백없음\nabc.def".data))).filterMap
        parseQuestionLine :=
  ⟨by decide, by decide,
   (c5_line_kept_iff ("머리[질문]\n공백없음\nabc.def".data) ("머리".data)
     ("\n공백없음\nabc.def".data) (by decide) (by decide) (by decide)).1⟩

/-- Claim C1: whenever any step of the reflection pipeline raises (the
prompt build, the first provider call, or the formatter call — the value
of `tryGenerate` is an error), `generate_questions` returns exactly the
fixed, hard-coded 5-element Korean question list in its stated order; and
since its embedding is a total function into `UserInfo × List Str`, it
never surfaces an exception to its caller. -/
theorem c1_fallback_on_error (st : UserInfo) (jd : JournalData) (mbti : Str)
    (goals preferences : Option Str) (pA : Str → Except Unit Str)
    (pB : Str → Str → Except Unit (List Str))
    (h : tryGenerate jd mbti goals preferences pA pB = .error ()) :
    (generate_questions st jd mbti goals preferences pA pB).2 =
      ["오늘 하루 동안 가장 강하게 느낀 감정은 무엇이었나요? 그 감정이 들었던 이유는 무엇일까요?".data,
       "오늘의 경험 중에서 자신에 대해 새롭게 알게 된 점이 있다면 무엇인가요?".data,
       "오늘 했던 선택들 중에서 다르게 할 수 있었던 것이 있었나요?".data,
       "오늘 하루를 통해 자신의 어떤 가치관이나 신념이 확인되었나요?".data,
       "내일의 자신에게 해주고 싶은 이야기가 있다면 무엇인가요?".data] := by
  simp [generate_questions, h, fallbackQuestions]

/-- Witness for C1 with both providers raising. -/
theorem c1_fallback_on_error_witness :
    tryGenerate ⟨[], []⟩ [] none none (fun _ => .error ())
      (fun _ _ => .error ()) = .error () ∧
    (generate_questions ⟨none, none⟩ ⟨[], []⟩ [] none none
      (fun _ => .error ()) (fun _ _ => .error ())).2 =
      ["오늘 하루 동안 가장 강하게 느낀 감정은 무엇이었나요? 그 감정이 들었던 이유는 무엇일까요?".data,
       "오늘의 경험 중에서 자신에 대해 새롭게 알게 된 점이 있다면 무엇인가요?".data,
       "오늘 했던 선택들 중에서 다르게 할 수 있었던 것이 있었나요?".data,
       "오늘 하루를 통해 자신의 어떤 가치관이나 신념이 확인되었나요?".data,
       "내일의 자신에게 해주고 싶은 이야기가 있다면 무엇인가요?".data] :=
  ⟨rfl, c1_fallback_on_error ⟨none, none⟩ ⟨[], []⟩ [] none none
    (fun _ => .error ()) (fun _ _ => .error ()) rfl⟩

/-- Counterexample to claim C4 as stated: on a successful run in which the
schema-constrained second provider returns a single question, the pipeline
returns that 1-element list unchanged — neither `QuestionsResponse`
(a bare `List[str]`) nor `generate_questions` enforces the count of 5 or
non-emptiness on the success path. -/
theorem c4_five_questions_cex :
    (generate_questions ⟨none, none⟩ ⟨[], []⟩ [] none none
      (fun _ => .ok []) (fun _ _ => .ok ["q".data])).2 = ["q".data] ∧
    (generate_questions ⟨none, none⟩ ⟨[], []⟩ [] none none
      (fun _ => .ok []) (fun _ _ => .ok ["q".data])).2.length ≠ 5 := by
  constructor
  · rfl
  · decide

/-- Claim C4 (amended): on any failing run the pipeline returns the fixed
fallback, which is a list of exactly 5 non-empty question strings; on a
successful run it returns the second provider's question list as-is, with
no length-5 or non-emptiness validation (the count of 5 is only requested
via the prompt and schema). -/
theorem c4_output_contract (st : UserInfo) (jd : JournalData) (mbti : Str)
    (goals preferences : Option Str) (pA : Str → Except Unit Str)
    (pB : Str → Str → Except Unit (List Str)) :
    (∀ qs, tryGenerate jd mbti goals preferences pA pB = .ok qs →
      (generate_questions st jd mbti goals preferences pA pB).2 = qs) ∧
    (tryGenerate jd mbti goals preferences pA pB = .error () →
      (generate_questions st jd mbti goals preferences pA pB).2 =
        fallbackQuestions ∧
      fallbackQuestions.length = 5 ∧ ∀ q ∈ fallbackQuestions, q ≠ []) := by
  constructor
  · intro qs h
    simp [generate_questions, h]
  · intro h
    refine ⟨by simp [generate_questions, h], by decide, by decide⟩

/-- Witness for C4 on a successful run whose provider returns two
questions, which are passed through unvalidated. -/
theorem c4_output_contract_witness :
    tryGenerate ⟨[], []⟩ [] none none (fun _ => .ok [])
      (fun _ _ => .ok ["q".data, "r".data]) = .ok ["q".data, "r".data] ∧
    (generate_questions ⟨none, none⟩ ⟨[], []⟩ [] none none
      (fun _ => .ok []) (fun _ _ => .ok ["q".data, "r".data])).2 =
      ["q".data, "r".data] :=
  ⟨rfl, (c4_output_contract ⟨none, none⟩ ⟨[], []⟩ [] none none
    (fun _ => .ok []) (fun _ _ => .ok ["q".data, "r".data])).1
    ["q".data, "r".data] rfl⟩

set_option maxRecDepth 8000 in
/-- Counterexample to claim C6 as stated: a direct call to
`get_gemini_analysis` builds its prompt from the analyzer's stored
`self.user_info` (set by the most recent `generate_questions` call), so
two direct calls with identical own arguments but different stored goals
produce different prompts and results — the instance does hold cross-call
mutable state observable through `get_gemini_analysis`. -/
theorem c6_direct_call_state_cex :
    get_gemini_analysis ⟨some ("성장".data), none⟩ ⟨[], []⟩ [] Except.ok ≠
    get_gemini_analysis ⟨none, none⟩ ⟨[], []⟩ [] Except.ok := by
  decide

/-- Claim C6 (amended): `generate_questions` itself is noninterfering
across calls — it overwrites both `user_info` keys from its own arguments
before any read, so its entire result (including the final stored state)
is independent of the state left by earlier invocations, and the state it
leaves depends only on its own `goals`/`preferences` arguments.  Direct
calls to `get_gemini_analysis`, however, read the stored state, as the
counterexample shows. -/
theorem c6_generate_noninterference (st1 st2 : UserInfo) (jd : JournalData)
    (mbti : Str) (goals preferences : Option Str)
    (pA : Str → Except Unit Str)
    (pB : Str → Str → Except Unit (List Str)) :
    generate_questions st1 jd mbti goals preferences pA pB =
      generate_questions st2 jd mbti goals preferences pA pB ∧
    (generate_questions st1 jd mbti goals preferences pA pB).1 =
      ⟨goals, preferences⟩ := by
  constructor
  · rfl
  · cases h : tryGenerate jd mbti goals preferences pA pB with
    | error e => simp [generate_questions, h]
    | ok qs => simp [generate_questions, h]

/-- Claim C7: the prompt assembly is a pure, deterministic function of its
inputs — two builds from identical inputs are byte-identical — and the
user free text (journal body, mbti code, rendered timeline text, goals and
preferences) is interpolated verbatim, each appearing as a contiguous
segment of the prompt; `buildPrompt` is deterministic as well. -/
theorem c7_prompt_deterministic_verbatim (info : UserInfo)
    (mbti tt journal : Str) :
    promptCore info mbti tt journal = promptCore info mbti tt journal ∧
    (∀ jd : JournalData, buildPrompt info jd mbti = buildPrompt info jd mbti) ∧
    (∃ u v, promptCore info mbti tt journal = u ++ (journal ++ v)) ∧
    (∃ u v, promptCore info mbti tt journal = u ++ (mbti ++ v)) ∧
    (∃ u v, promptCore info mbti tt journal = u ++ (tt ++ v)) := by
  refine ⟨rfl, fun _ => rfl, ⟨?_, ?_, ?_⟩, ⟨?_, ?_, ?_⟩, ⟨?_, ?_, ?_⟩⟩
  · exact promptChunk1 ++ mbti ++ promptChunk2 ++ pyOptStr info.goals ++
      promptChunk3 ++ pyOptStr info.preferences ++ promptChunk4 ++ tt ++
      promptChunk5
  · exact promptChunk6
  · simp [promptCore, List.append_assoc]
  · exact promptChunk1
  · exact promptChunk2 ++ pyOptStr info.goals ++ promptChunk3 ++
      pyOptStr info.preferences ++ promptChunk4 ++ tt ++ promptChunk5 ++
      journal ++ promptChunk6
  · simp [promptCore, List.append_assoc]
  · exact promptChunk1 ++ mbti ++ promptChunk2 ++ pyOptStr info.goals ++
      promptChunk3 ++ pyOptStr info.preferences ++ promptChunk4
  · exact promptChunk5 ++ journal ++ promptChunk6
  · simp [promptCore, List.append_assoc]

/-- Claim C8: when the schema-constrained provider call of the
quest-generation orchestrator raises, the orchestrator propagates the
exception to its caller unchanged and never substitutes a default or
fallback quest list (its result is the error, not any `ok` list). -/
theorem c8_quest_error_propagates (pA : Str → Except Unit Str)
    (pB : Str → Except Unit (List Quest)) (prompt rationale : Str)
    (hA : pA prompt = .ok rationale) (hB : pB rationale = .error ()) :
    questOrchestrator pA pB prompt = .error () ∧
    ∀ qs : List Quest, questOrchestrator pA pB prompt ≠ .ok qs := by
  constructor
  · simp [questOrchestrator, hA, hB]
  · intro qs
    simp [questOrchestrator, hA, hB]

/-- Witness for C8 with a failing schema-constrained call. -/
theorem c8_quest_error_propagates_witness :
    (fun _ : Str => (Except.ok ("이유".data) : Except Unit Str)) ("p".data) =
      .ok ("이유".data) ∧
    (fun _ : Str => (Except.error () : Except Unit (List Quest)))
      ("이유".data) = .error () ∧
    questOrchestrator (fun _ => .ok ("이유".data)) (fun _ => .error ())
      ("p".data) = .error () :=
  ⟨rfl, rfl,
   (c8_quest_error_propagates (fun _ => .ok ("이유".data))
     (fun _ => .error ()) ("p".data) ("이유".data) rfl rfl).1⟩

/-- Claim C9: `extract_page_id` raises `ValueError("Invalid Notion URL")`
exactly when no position of the URL starts a 32-character run of
`[a-f0-9]` characters, and otherwise returns the 32-character run at the
leftmost such position; being a total function into `Except`, no other
exception is possible. -/
theorem c9_extract_page_id_leftmost (url : Str) :
    (extract_page_id url = .error ("Invalid Notion URL".data) ↔
      ∀ i, hex32At url i = false) ∧
    (∀ i, hex32At url i = true → (∀ j < i, hex32At url j = false) →
      extract_page_id url = .ok ((url.drop i).take 32)) := by
  constructor
  · constructor
    · intro h i
      have hn : searchHex32 url = none := by
        cases hs : searchHex32 url with
        | none => rfl
        | some pid =>
          rw [extract_page_id.eq_def, hs] at h
          cases h
      exact (searchHex32_eq_none_iff url).mp hn i
    · intro hall
      rw [extract_page_id.eq_def, (searchHex32_eq_none_iff url).mpr hall]
  · intro i hi hmin
    rw [extract_page_id.eq_def, searchHex32_first url i hi hmin]

/-- Witness for C9 on a URL holding a page id after a 10-character
scheme-and-host prefix. -/
theorem c9_extract_page_id_leftmost_witness :
    hex32At ("https://x/0123456789abcdef0123456789abcdef".data) 10 = true ∧
    extract_page_id ("https://x/0123456789abcdef0123456789abcdef".data) =
      .ok ((("https://x/0123456789abcdef0123456789abcdef".data).drop 10).take
        32) :=
  ⟨by decide,
   (c9_extract_page_id_leftmost
     ("https://x/0123456789abcdef0123456789abcdef".data)).2 10 (by decide)
     (by decide)⟩

/-- Claim C10: the timeline write/read pair is not a round-trip — the
pages written by `generate_daily_timeline` contain one `heading_1` block
and paragraph blocks only (never `heading_3` or `callout`), while
`get_todays_journal` opens a timeline entry only at a `heading_3` block
and attaches paragraph/callout text only after one, so for every activity
list the timeline reconstructed from a page written by
`generate_daily_timeline` is the empty sequence. -/
theorem c10_timeline_write_read_empty (activities : List ActivityIn) :
    readTimeline (timelineChildren activities) = .ok [] := by
  have hbody : ((sortActivities activities).flatMap activityBlocks).foldlM
      readTLStep ([], emptyEntry) = .ok ([], emptyEntry) := by
    apply readTL_paragraphs_skip
    intro b hb
    rw [List.mem_flatMap] at hb
    obtain ⟨a, _, hba⟩ := hb
    exact activityBlocks_paragraphs a b hba
  have hhead : readTLStep ([], emptyEntry)
      (Block.heading1 ["🕒 활동 기록".data]) = .ok ([], emptyEntry) := rfl
  have hfold : (timelineChildren activities).foldlM readTLStep
      ([], emptyEntry) = .ok ([], emptyEntry) := by
    rw [timelineChildren, List.foldlM_cons, hhead]
    exact hbody
  rw [readTimeline.eq_def, hfold]
  simp [entryNonempty, emptyEntry]

end LifeGame
